import Mathlib

/-!
Shallow embedding of `backend/attendance/models.py` (office_attendance).

Conventions of the embedding:
* Python `Decimal` values are modelled as exact rationals `ℚ`.  All the
  arithmetic the payroll engine performs (sums, products by small integers,
  one division by the working-day count, multiplication by `0.5`) is exact
  in `Decimal`'s 28-digit context for the magnitudes a payroll handles, so
  the rational model agrees with the code on every 2-decimal rounded output.
* `round(x, 2)` on a `Decimal` quantizes with the default context rounding,
  round-half-to-even; `round2` below implements exactly that.
* Django `TimeField` values are seconds since midnight (`ℕ`).
  `timedelta.total_seconds() / 3600` is a binary floating-point division in
  the source; the embedding uses the exact rational quotient.  For every
  duration that is not an exact half-cent tie the two agree after 2-decimal
  rounding, and the claim-level theorems below are stated in the
  tie-insensitive form (within half a cent of the exact duration).
* Database querysets are lists; `filter` on a queryset is `List.filter`.
* Exceptions are `Except String`.
-/

instance exceptDecEq {ε α : Type} [DecidableEq ε] [DecidableEq α] :
    DecidableEq (Except ε α) := fun
  | Except.error a, Except.error b =>
      if h : a = b then Decidable.isTrue (by rw [h])
      else Decidable.isFalse (by intro hc; injection hc; exact h (by assumption))
  | Except.error _, Except.ok _ => Decidable.isFalse (by intro hc; exact Except.noConfusion hc)
  | Except.ok _, Except.error _ => Decidable.isFalse (by intro hc; exact Except.noConfusion hc)
  | Except.ok a, Except.ok b =>
      if h : a = b then Decidable.isTrue (by rw [h])
      else Decidable.isFalse (by intro hc; injection hc; exact h (by assumption))

inductive EmployeeType
  | full_time
  | part_time
  | hourly
deriving DecidableEq

inductive AttStatus
  | present
  | absent
  | leave
  | half_day
  | late
deriving DecidableEq

inductive LeaveStatus
  | pending
  | approved
  | rejected
deriving DecidableEq

/-- Calendar date, compared lexicographically like Python `datetime.date`. -/
structure Date where
  year : ℕ
  month : ℕ
  day : ℕ
deriving DecidableEq

/-- `a <= b` on dates, lexicographic (as Python's `date.__le__`). -/
def dateLeB (a b : Date) : Bool :=
  decide (a.year < b.year ∨ (a.year = b.year ∧
    (a.month < b.month ∨ (a.month = b.month ∧ a.day ≤ b.day))))

/-- `Employee` (models.py:57): the fields the payroll engine reads.
`base_salary`, `bonus_amount`, `working_hours` are `Decimal` columns,
`paid_leave_quota` a signed `IntegerField`. -/
structure Employee where
  emp_id : String
  employee_type : EmployeeType
  base_salary : ℚ
  bonus_amount : ℚ
  bonus_eligible : Bool
  working_hours : ℚ
  paid_leave_quota : ℤ
deriving DecidableEq

/-- `Attendance` row (models.py:130). `time_in`/`time_out` in seconds since
midnight; `hours_worked` nullable `Decimal`. -/
structure Attendance where
  emp_id : String
  date : Date
  time_in : Option ℕ
  time_out : Option ℕ
  hours_worked : Option ℚ
  status : AttStatus
deriving DecidableEq

/-- `Leave` row (models.py:173): one row per leave-day. -/
structure Leave where
  emp_id : String
  date : Date
  is_paid : Bool
  status : LeaveStatus
deriving DecidableEq

/-- The stores the payroll engine queries: attendance rows, leave rows and
the `Setting` key/value table (key unique). -/
structure Database where
  attendance : List Attendance
  leaves : List Leave
  settings : List (String × String)
deriving DecidableEq

/-- `Setting.get(key, default=None)` (models.py:20): stored string when the
key is present, else `none` (the caller's default). -/
def settingGet (db : Database) (key : String) : Option String :=
  (db.settings.find? (fun kv => kv.1 == key)).map (fun kv => kv.2)

/-- A nonempty all-digit character run read as a natural number; `none`
models the `ValueError`/`InvalidOperation` of a malformed literal. -/
def digitsToNat (l : List Char) : Option ℕ :=
  if l ≠ [] ∧ l.all Char.isDigit then
    some (l.foldl (fun acc c => acc * 10 + (c.toNat - 48)) 0)
  else none

/-- Strip leading and trailing whitespace, as Python's numeric
constructors do before parsing. -/
def stripWS (l : List Char) : List Char :=
  ((l.dropWhile Char.isWhitespace).reverse.dropWhile Char.isWhitespace).reverse

/-- The sign prefix of a numeric literal. -/
def signOf (l : List Char) : ℤ :=
  match l with
  | '-' :: _ => -1
  | _ => 1

/-- The characters after the optional sign prefix. -/
def afterSign (l : List Char) : List Char :=
  match l with
  | '-' :: r => r
  | '+' :: r => r
  | r => r

/-- Python `int(s)` on a decimal string: optional surrounding whitespace,
optional sign, then a nonempty digit run; `none` models `ValueError`. -/
def pyInt (s : String) : Option ℤ :=
  let l := afterSign (stripWS s.toList)
  (digitsToNat l).map (fun n => signOf (stripWS s.toList) * (n : ℤ))

/-- Python `Decimal(s)` on a plain decimal literal `[sign]digits[.digits]`;
`none` models `InvalidOperation`. -/
def pyDecimal (s : String) : Option ℚ :=
  let l := afterSign (stripWS s.toList)
  let sign : ℚ := (signOf (stripWS s.toList) : ℚ)
  if l.count '.' = 0 then (digitsToNat l).map (fun n => sign * (n : ℚ))
  else if l.count '.' = 1 then
    let i := l.takeWhile (fun c => c ≠ '.')
    let f := (l.dropWhile (fun c => c ≠ '.')).drop 1
    match digitsToNat (i ++ f) with
    | some n => some (sign * (n : ℚ) / ((10 : ℚ) ^ f.length))
    | none => none
  else none

/-- Round-half-to-even to the nearest integer (the `Decimal` default
context rounding used by Python `round`). -/
def roundHalfEvenInt (x : ℚ) : ℤ :=
  if x - (⌊x⌋ : ℚ) < 1/2 then ⌊x⌋
  else if 1/2 < x - (⌊x⌋ : ℚ) then ⌊x⌋ + 1
  else if ⌊x⌋ % 2 = 0 then ⌊x⌋ else ⌊x⌋ + 1

/-- `round(x, 2)` on a `Decimal`: quantize to 2 decimal places,
round-half-to-even. -/
def round2 (x : ℚ) : ℚ := ((roundHalfEvenInt (x * 100) : ℚ)) / 100

/-- `x` is representable with 2 decimal places (a `Decimal(·, 2)` column
value). -/
def Dec2 (x : ℚ) : Prop := ∃ n : ℤ, x = (n : ℚ) / 100

/-- `Employee.get_daily_rate` (models.py:114).  The `int()` coercion of the
`working_days_per_month` setting is guarded by `try/except` (fallback 22);
the division itself is not, so a stored value that parses to `0` lets
`Decimal.__truediv__` raise `DivisionByZero` when `base_salary` is
nonzero. -/
def getDailyRate (e : Employee) (db : Database) : Except String ℚ :=
  let wd : ℤ :=
    match settingGet db "working_days_per_month" with
    | none => 22
    | some s => (pyInt s).getD 22
  match e.employee_type with
  | EmployeeType.full_time =>
      if e.base_salary ≠ 0 then
        if wd = 0 then Except.error "DivisionByZero"
        else Except.ok (e.base_salary / (wd : ℚ))
      else Except.ok 0
  | EmployeeType.part_time =>
      Except.ok (if e.base_salary ≠ 0 then e.base_salary else 0)
  | EmployeeType.hourly => Except.ok 0

/-- `Attendance.calculate_hours` (models.py:148).  With both times set the
elapsed seconds get a 24 h correction when `time_out < time_in`, and the
hour count is rounded to 2 decimals; with a time missing, full/part-time
`present` rows get the employee's `working_hours`, all other rows `none`. -/
def calculate_hours (e : Employee) (a : Attendance) : Option ℚ :=
  match a.time_in, a.time_out with
  | some tin, some tout =>
      let tout' := if tout < tin then tout + 86400 else tout
      some (round2 (((tout' - tin : ℕ) : ℚ) / 3600))
  | _, _ =>
      if (e.employee_type = EmployeeType.full_time ∨
          e.employee_type = EmployeeType.part_time) ∧ a.status = AttStatus.present
      then some e.working_hours
      else none

/-- The wraparound-corrected shift length in seconds used by
`calculate_hours`. -/
def elapsedSeconds (tin tout : ℕ) : ℕ :=
  (if tout < tin then tout + 86400 else tout) - tin

/-- `Employee.save` (models.py:103): a falsy (zero) `paid_leave_quota` is
replaced by the employment-type default on every save. -/
def employeeSave (e : Employee) : Employee :=
  if e.paid_leave_quota = 0 then
    { e with paid_leave_quota :=
        match e.employee_type with
        | EmployeeType.full_time => 22
        | EmployeeType.part_time => 11
        | EmployeeType.hourly => 0 }
  else e

/-- `calendar.isleap` (Gregorian). -/
def isleap (y : ℕ) : Bool :=
  y % 4 == 0 && (y % 100 != 0 || y % 400 == 0)

/-- `calendar.monthrange(y, m)[1]`: the number of days of month `m` of
year `y` (0 for a month outside 1..12, which the engine never reaches). -/
def daysInMonth (y m : ℕ) : ℕ :=
  match m with
  | 1 => 31
  | 2 => if isleap y then 29 else 28
  | 3 => 31
  | 4 => 30
  | 5 => 31
  | 6 => 30
  | 7 => 31
  | 8 => 31
  | 9 => 30
  | 10 => 31
  | 11 => 30
  | 12 => 31
  | _ => 0

/-- Month lengths written independently of `daysInMonth`'s lookup table:
the classic closed form `30 + (m + m / 8) % 2` for the non-February
months, and the Gregorian leap-year condition spelled out for February. -/
def specDaysInMonth (y m : ℕ) : ℕ :=
  if m = 2 then (if y % 4 = 0 ∧ (y % 100 ≠ 0 ∨ y % 400 = 0) then 29 else 28)
  else 30 + (m + m / 8) % 2

/-- `date(year, month, ...)` accepts months 1..12 and years 1..9999;
outside that range the constructor raises `ValueError`. -/
def validYM (y m : ℕ) : Prop := 1 ≤ m ∧ m ≤ 12 ∧ 1 ≤ y ∧ y ≤ 9999

instance (y m : ℕ) : Decidable (validYM y m) := by
  unfold validYM; infer_instance

/-- `Attendance.objects.filter(employee=emp, date__range=(first_day, last_day))`. -/
def monthAtts (db : Database) (e : Employee) (y m : ℕ) : List Attendance :=
  db.attendance.filter (fun a =>
    a.emp_id == e.emp_id && dateLeB ⟨y, m, 1⟩ a.date &&
      dateLeB a.date ⟨y, m, daysInMonth y m⟩)

/-- `Leave.objects.filter(employee=emp, date__range=..., status='approved')`. -/
def approvedLeavesInMonth (db : Database) (e : Employee) (y m : ℕ) : List Leave :=
  db.leaves.filter (fun l =>
    l.emp_id == e.emp_id && dateLeB ⟨y, m, 1⟩ l.date &&
      dateLeB l.date ⟨y, m, daysInMonth y m⟩ &&
      decide (l.status = LeaveStatus.approved))

/-- `leaves_in_month.filter(is_paid=False).count()`. -/
def unpaidLeaveCount (db : Database) (e : Employee) (y m : ℕ) : ℕ :=
  (approvedLeavesInMonth db e y m).countP (fun l => !l.is_paid)

/-- `atts.filter(status='absent').count()`. -/
def absentCount (db : Database) (e : Employee) (y m : ℕ) : ℕ :=
  (monthAtts db e y m).countP (fun a => decide (a.status = AttStatus.absent))

/-- `atts.filter(status='half_day').count()`. -/
def halfDayCount (db : Database) (e : Employee) (y m : ℕ) : ℕ :=
  (monthAtts db e y m).countP (fun a => decide (a.status = AttStatus.half_day))

/-- `atts.filter(status='present').count()`. -/
def presentCount (db : Database) (e : Employee) (y m : ℕ) : ℕ :=
  (monthAtts db e y m).countP (fun a => decide (a.status = AttStatus.present))

/-- `atts.aggregate(total=Sum('hours_worked'))['total'] or Decimal('0.00')`:
SQL `SUM` skips nulls, and a null aggregate falls back to `0`. -/
def hoursSum (db : Database) (e : Employee) (y m : ℕ) : ℚ :=
  ((monthAtts db e y m).filterMap (fun a => a.hours_worked)).sum

/-- `SalaryRecord` (models.py:198): the `(employee, year, month)` key plus
the six computed `Decimal` columns. -/
structure SalaryRecord where
  emp : Employee
  year : ℕ
  month : ℕ
  gross_salary : ℚ
  deductions : ℚ
  bonus_applied : ℚ
  net_salary : ℚ
  half_day_deductions : ℚ
  unpaid_leave_days : ℚ
deriving DecidableEq

/-- The bonus block of `calculate_for_month` (models.py:267-280): the
employee override, the `global_bonus` setting fallback (an empty string is
falsy, an unparsable one yields 0), then the disqualification override on
unpaid leave days or any late mark. -/
def bonusFor (e : Employee) (db : Database) (atts : List Attendance)
    (unpaid : ℚ) : ℚ :=
  if e.bonus_eligible then
    let b : ℚ :=
      if e.bonus_amount ≠ 0 ∧ 0 < e.bonus_amount then e.bonus_amount
      else
        match settingGet db "global_bonus" with
        | none => 0
        | some s => if s = "" then 0 else (pyDecimal s).getD 0
    if 0 < unpaid ∨ atts.any (fun a => decide (a.status = AttStatus.late))
    then 0 else b
  else 0

/-- The tail of `calculate_for_month` (models.py:266-291): bonus logic,
netting, 2-decimal rounding of the six fields, and the overwrite of the
record's previous values. -/
def finalize (r : SalaryRecord) (db : Database) (atts : List Attendance)
    (gross ded half unpaid : ℚ) : SalaryRecord :=
  let bonus := bonusFor r.emp db atts unpaid
  { r with
    gross_salary := round2 gross
    deductions := round2 ded
    bonus_applied := round2 bonus
    net_salary := round2 (gross - ded + bonus)
    half_day_deductions := round2 half
    unpaid_leave_days := round2 unpaid }

/-- `SalaryRecord.calculate_for_month` (models.py:217).  Month boundaries
via `calendar.monthrange`, then the employment-type branch, then
`finalize`.  Only the full_time branch calls `get_daily_rate`, so only it
can propagate the `DivisionByZero` of models.py:124. -/
def calcForMonth (r : SalaryRecord) (db : Database) : Except String SalaryRecord :=
  if validYM r.year r.month then
    let e := r.emp
    let atts := monthAtts db e r.year r.month
    match e.employee_type with
    | EmployeeType.full_time =>
        match getDailyRate e db with
        | Except.error s => Except.error s
        | Except.ok rate =>
            let unpaid : ℚ :=
              ((unpaidLeaveCount db e r.year r.month : ℕ) : ℚ) +
                ((absentCount db e r.year r.month : ℕ) : ℚ)
            let half : ℚ :=
              ((halfDayCount db e r.year r.month : ℕ) : ℚ) * rate * (1/2)
            Except.ok (finalize r db atts e.base_salary
              (unpaid * rate + half) half unpaid)
    | EmployeeType.part_time =>
        let rate : ℚ := e.base_salary
        let half : ℚ :=
          ((halfDayCount db e r.year r.month : ℕ) : ℚ) * (rate * (1/2))
        Except.ok (finalize r db atts
          (rate * ((presentCount db e r.year r.month : ℕ) : ℚ))
          (((unpaidLeaveCount db e r.year r.month : ℕ) : ℚ) * rate + half)
          half 0)
    | EmployeeType.hourly =>
        Except.ok (finalize r db atts
          (hoursSum db e r.year r.month * e.base_salary) 0 0 0)
  else Except.error "ValueError: year or month out of range"

/-! ### Concrete inputs used by the per-claim instantiations -/

/-- C4 concrete scenario: full_time employee, base 30000, default working
days (no setting row), two approved unpaid leave days and one half_day
attendance entry in 2024-01. -/
def C4emp : Employee := ⟨"C4", EmployeeType.full_time, 30000, 0, false, 8, 22⟩

def C4db : Database :=
  ⟨[⟨"C4", ⟨2024, 1, 7⟩, none, none, none, AttStatus.half_day⟩],
   [⟨"C4", ⟨2024, 1, 5⟩, false, LeaveStatus.approved⟩,
    ⟨"C4", ⟨2024, 1, 6⟩, false, LeaveStatus.approved⟩],
   []⟩

def C4rec : SalaryRecord := ⟨C4emp, 2024, 1, 0, 0, 0, 0, 0, 0⟩

/-- C3 concrete inputs: a full_time employee with positive salary, and the
settings table holding `working_days_per_month` as `"0"`, as unparsable
text, and absent. -/
def C3emp : Employee := ⟨"C3", EmployeeType.full_time, 1000, 0, false, 8, 22⟩

def C3part : Employee := ⟨"C3P", EmployeeType.part_time, 1000, 0, false, 8, 11⟩

def C3hour : Employee := ⟨"C3H", EmployeeType.hourly, 100, 0, false, 8, 0⟩

def C3dbZero : Database := ⟨[], [], [("working_days_per_month", "0")]⟩

def C3dbBad : Database := ⟨[], [], [("working_days_per_month", "abc")]⟩

def C3dbMissing : Database := ⟨[], [], []⟩

/-- C8 concrete input: an hourly employee, an empty ledger, and a prior
record holding stale nonzero values that the engine must overwrite. -/
def C8emp : Employee := ⟨"C8", EmployeeType.hourly, 50, 0, false, 8, 0⟩

def C8db : Database := ⟨[], [], []⟩

def C8rec : SalaryRecord := ⟨C8emp, 2024, 3, 5, 5, 5, 5, 5, 5⟩

def C8res : SalaryRecord := ⟨C8emp, 2024, 3, 0, 0, 0, 0, 0, 0⟩

/-- C1 concrete input: a full_time employee over an empty ledger month. -/
def C1emp : Employee := ⟨"C1", EmployeeType.full_time, 100, 0, false, 8, 22⟩

def C1db : Database := ⟨[], [], []⟩

def C1rec : SalaryRecord := ⟨C1emp, 2024, 1, 0, 0, 0, 0, 0, 0⟩

def C1res : SalaryRecord := ⟨C1emp, 2024, 1, 100, 0, 0, 100, 0, 0⟩

/-- C2 concrete input: a bonus-eligible full_time employee with a positive
bonus amount and one `late` attendance entry in the month. -/
def C2emp : Employee := ⟨"C2", EmployeeType.full_time, 1000, 500, true, 8, 22⟩

def C2db : Database :=
  ⟨[⟨"C2", ⟨2024, 2, 5⟩, none, none, none, AttStatus.late⟩], [], []⟩

def C2rec : SalaryRecord := ⟨C2emp, 2024, 2, 0, 0, 0, 0, 0, 0⟩

def C2res : SalaryRecord := ⟨C2emp, 2024, 2, 1000, 0, 0, 1000, 0, 0⟩

/-- C5 concrete input: an hourly employee with one 8-hour attendance row,
one row without hours, and a (deliberately nonempty) leave ledger. -/
def C5emp : Employee := ⟨"C5", EmployeeType.hourly, 10, 0, false, 8, 0⟩

def C5db : Database :=
  ⟨[⟨"C5", ⟨2024, 4, 2⟩, none, none, some 8, AttStatus.present⟩,
    ⟨"C5", ⟨2024, 4, 3⟩, none, none, none, AttStatus.absent⟩],
   [⟨"C5", ⟨2024, 4, 4⟩, false, LeaveStatus.approved⟩],
   []⟩

def C5rec : SalaryRecord := ⟨C5emp, 2024, 4, 0, 0, 0, 0, 0, 0⟩

def C5res : SalaryRecord := ⟨C5emp, 2024, 4, 80, 0, 0, 80, 0, 0⟩

/-- C6 concrete input: a part_time employee with two `present` days, one
`half_day` and one approved unpaid leave day. -/
def C6emp : Employee := ⟨"C6", EmployeeType.part_time, 1000, 0, false, 8, 11⟩

def C6db : Database :=
  ⟨[⟨"C6", ⟨2024, 5, 2⟩, none, none, none, AttStatus.present⟩,
    ⟨"C6", ⟨2024, 5, 3⟩, none, none, none, AttStatus.present⟩,
    ⟨"C6", ⟨2024, 5, 4⟩, none, none, none, AttStatus.half_day⟩],
   [⟨"C6", ⟨2024, 5, 6⟩, false, LeaveStatus.approved⟩],
   []⟩

def C6rec : SalaryRecord := ⟨C6emp, 2024, 5, 0, 0, 0, 0, 0, 0⟩

def C6res : SalaryRecord := ⟨C6emp, 2024, 5, 2000, 1500, 0, 500, 500, 0⟩

/-- C7 concrete input: the spec's overnight shift, 22:00 in to 06:00 out
(in seconds since midnight). -/
def C7emp : Employee := ⟨"C7", EmployeeType.hourly, 10, 0, false, 8, 0⟩

def C7att : Attendance :=
  ⟨"C7", ⟨2024, 6, 1⟩, some 79200, some 21600, none, AttStatus.present⟩

/-- C10 concrete input: a full_time employee whose quota was set to a
negative value before saving. -/
def C10neg : Employee := ⟨"C10A", EmployeeType.full_time, 1000, 0, false, 8, -1⟩

/-- C10 concrete input: a full_time employee with the unset (zero) quota. -/
def C10zero : Employee := ⟨"C10B", EmployeeType.full_time, 1000, 0, false, 8, 0⟩

/-! ### Arithmetic lemmas about the rounding rule -/

theorem roundHalfEvenInt_intCast (n : ℤ) : roundHalfEvenInt (n : ℚ) = n := by
  unfold roundHalfEvenInt
  rw [Int.floor_intCast]
  simp

theorem round2_dec2 {x : ℚ} (h : Dec2 x) : round2 x = x := by
  obtain ⟨n, rfl⟩ := h
  unfold round2
  have h100 : (n : ℚ) / 100 * 100 = (n : ℚ) := by field_simp
  rw [h100, roundHalfEvenInt_intCast]

theorem dec2_zero : Dec2 0 := ⟨0, by norm_num⟩

theorem dec2_natCast (n : ℕ) : Dec2 (n : ℚ) := ⟨(n : ℤ) * 100, by push_cast; ring⟩

theorem dec2_add {x y : ℚ} (hx : Dec2 x) (hy : Dec2 y) : Dec2 (x + y) := by
  obtain ⟨a, rfl⟩ := hx
  obtain ⟨b, rfl⟩ := hy
  exact ⟨a + b, by push_cast; ring⟩

theorem dec2_mul_natCast {x : ℚ} (hx : Dec2 x) (n : ℕ) : Dec2 (x * (n : ℚ)) := by
  obtain ⟨a, rfl⟩ := hx
  exact ⟨a * (n : ℤ), by push_cast; ring⟩

theorem round2_zero : round2 0 = 0 := round2_dec2 dec2_zero

theorem round2_natCast (n : ℕ) : round2 ((n : ℕ) : ℚ) = (n : ℚ) :=
  round2_dec2 (dec2_natCast n)

theorem dec2_round2 (x : ℚ) : Dec2 (round2 x) := ⟨roundHalfEvenInt (x * 100), rfl⟩

theorem abs_round2_sub_le (x : ℚ) : |round2 x - x| ≤ 1/200 := by
  have h1 : ((⌊x * 100⌋ : ℤ) : ℚ) ≤ x * 100 := Int.floor_le _
  have h2 : x * 100 < (⌊x * 100⌋ : ℚ) + 1 := Int.lt_floor_add_one _
  unfold round2 roundHalfEvenInt
  split_ifs with ha hb hc <;> rw [abs_le] <;> push_cast <;> constructor <;> linarith

theorem round2_eq_down {x : ℚ} {n : ℤ} (h1 : (n : ℚ) ≤ x * 100)
    (h2 : x * 100 < (n : ℚ) + 1/2) : round2 x = (n : ℚ) / 100 := by
  have hfl : ⌊x * 100⌋ = n := by
    rw [Int.floor_eq_iff]
    exact ⟨h1, by linarith⟩
  unfold round2 roundHalfEvenInt
  rw [hfl, if_pos (by linarith)]

theorem round2_eq_up {x : ℚ} {n : ℤ} (h1 : (n : ℚ) + 1/2 < x * 100)
    (h2 : x * 100 < (n : ℚ) + 1) : round2 x = ((n : ℚ) + 1) / 100 := by
  have hfl : ⌊x * 100⌋ = n := by
    rw [Int.floor_eq_iff]
    exact ⟨by linarith, h2⟩
  unfold round2 roundHalfEvenInt
  rw [hfl, if_neg (by linarith), if_pos (by linarith)]
  push_cast
  ring

/-! ### Unfolding lemmas for the payroll engine -/

theorem calcForMonth_full_time (r : SalaryRecord) (db : Database) (rate : ℚ)
    (hv : validYM r.year r.month)
    (hft : r.emp.employee_type = EmployeeType.full_time)
    (hrate : getDailyRate r.emp db = Except.ok rate) :
    calcForMonth r db = Except.ok (finalize r db (monthAtts db r.emp r.year r.month)
      r.emp.base_salary
      ((((unpaidLeaveCount db r.emp r.year r.month : ℕ) : ℚ) +
          ((absentCount db r.emp r.year r.month : ℕ) : ℚ)) * rate +
        ((halfDayCount db r.emp r.year r.month : ℕ) : ℚ) * rate * (1/2))
      (((halfDayCount db r.emp r.year r.month : ℕ) : ℚ) * rate * (1/2))
      (((unpaidLeaveCount db r.emp r.year r.month : ℕ) : ℚ) +
        ((absentCount db r.emp r.year r.month : ℕ) : ℚ))) := by
  unfold calcForMonth
  simp only [hft, hrate, hv, if_true, iff_true]

theorem calcForMonth_part_time (r : SalaryRecord) (db : Database)
    (hv : validYM r.year r.month)
    (hpt : r.emp.employee_type = EmployeeType.part_time) :
    calcForMonth r db = Except.ok (finalize r db (monthAtts db r.emp r.year r.month)
      (r.emp.base_salary * ((presentCount db r.emp r.year r.month : ℕ) : ℚ))
      (((unpaidLeaveCount db r.emp r.year r.month : ℕ) : ℚ) * r.emp.base_salary +
        ((halfDayCount db r.emp r.year r.month : ℕ) : ℚ) * (r.emp.base_salary * (1/2)))
      (((halfDayCount db r.emp r.year r.month : ℕ) : ℚ) * (r.emp.base_salary * (1/2)))
      0) := by
  unfold calcForMonth
  simp only [hpt, hv, if_true, iff_true]

theorem calcForMonth_hourly (r : SalaryRecord) (db : Database)
    (hv : validYM r.year r.month)
    (hh : r.emp.employee_type = EmployeeType.hourly) :
    calcForMonth r db = Except.ok (finalize r db (monthAtts db r.emp r.year r.month)
      (hoursSum db r.emp r.year r.month * r.emp.base_salary) 0 0 0) := by
  unfold calcForMonth
  simp only [hh, hv, if_true, iff_true]

theorem calcForMonth_ok_valid {r : SalaryRecord} {db : Database} {r' : SalaryRecord}
    (h : calcForMonth r db = Except.ok r') : validYM r.year r.month := by
  by_contra hv
  unfold calcForMonth at h
  rw [if_neg hv] at h
  exact Except.noConfusion h

theorem calcForMonth_ft_rate {r : SalaryRecord} {db : Database} {r' : SalaryRecord}
    (hft : r.emp.employee_type = EmployeeType.full_time)
    (h : calcForMonth r db = Except.ok r') :
    ∃ rate : ℚ, getDailyRate r.emp db = Except.ok rate := by
  have hv := calcForMonth_ok_valid h
  unfold calcForMonth at h
  rw [if_pos hv] at h
  simp only [hft] at h
  cases hgd : getDailyRate r.emp db with
  | error s => rw [hgd] at h; simp at h
  | ok rate => exact ⟨rate, rfl⟩

theorem finalize_emp (r : SalaryRecord) (db : Database) (atts : List Attendance)
    (g d hf u : ℚ) : (finalize r db atts g d hf u).emp = r.emp := rfl

theorem finalize_year (r : SalaryRecord) (db : Database) (atts : List Attendance)
    (g d hf u : ℚ) : (finalize r db atts g d hf u).year = r.year := rfl

theorem finalize_month (r : SalaryRecord) (db : Database) (atts : List Attendance)
    (g d hf u : ℚ) : (finalize r db atts g d hf u).month = r.month := rfl

/-! ### Claims -/

/-- C1: for every full_time employee and month, `calculate_for_month` sets
`gross_salary = base_salary`, `unpaid_leave_days` = (approved unpaid leave
entries in the month) + (attendance entries with status absent),
`half_day_deductions` = half-day count × daily_rate × 0.5, and
`deductions = unpaid_leave_days × daily_rate + half_day_deductions`, with
`daily_rate` the value of `get_daily_rate` (the persisted fields carry the
engine's final 2-decimal rounding). -/
theorem C1_full_time_formulas (r : SalaryRecord) (db : Database) (r' : SalaryRecord)
    (hft : r.emp.employee_type = EmployeeType.full_time)
    (hb : Dec2 r.emp.base_salary)
    (h : calcForMonth r db = Except.ok r') :
    ∃ rate : ℚ, getDailyRate r.emp db = Except.ok rate ∧
      r'.gross_salary = r.emp.base_salary ∧
      r'.unpaid_leave_days = (unpaidLeaveCount db r.emp r.year r.month : ℚ) +
        (absentCount db r.emp r.year r.month : ℚ) ∧
      r'.half_day_deductions =
        round2 ((halfDayCount db r.emp r.year r.month : ℚ) * rate * (1/2)) ∧
      r'.deductions = round2 (r'.unpaid_leave_days * rate +
        (halfDayCount db r.emp r.year r.month : ℚ) * rate * (1/2)) := by
  obtain ⟨rate, hrate⟩ := calcForMonth_ft_rate hft h
  have hv := calcForMonth_ok_valid h
  have hcalc := calcForMonth_full_time r db rate hv hft hrate
  rw [h] at hcalc
  injection hcalc with hr'
  subst hr'
  have hu : (finalize r db (monthAtts db r.emp r.year r.month)
      r.emp.base_salary
      ((((unpaidLeaveCount db r.emp r.year r.month : ℕ) : ℚ) +
          ((absentCount db r.emp r.year r.month : ℕ) : ℚ)) * rate +
        ((halfDayCount db r.emp r.year r.month : ℕ) : ℚ) * rate * (1/2))
      (((halfDayCount db r.emp r.year r.month : ℕ) : ℚ) * rate * (1/2))
      (((unpaidLeaveCount db r.emp r.year r.month : ℕ) : ℚ) +
        ((absentCount db r.emp r.year r.month : ℕ) : ℚ))).unpaid_leave_days =
      (unpaidLeaveCount db r.emp r.year r.month : ℚ) +
        (absentCount db r.emp r.year r.month : ℚ) := by
    show round2 _ = _
    exact round2_dec2 (dec2_add (dec2_natCast _) (dec2_natCast _))
  refine ⟨rate, hrate, ?_, hu, ?_, ?_⟩
  · show round2 _ = _
    exact round2_dec2 hb
  · rfl
  · rw [hu]; rfl

/-- C5: for every hourly employee and month, `calculate_for_month` computes
`gross_salary` = (sum of non-null `hours_worked` over the month's
attendance entries) × `base_salary` (2-decimal rounded on persist), and
leaves `unpaid_leave_days` (and `deductions`) at 0 regardless of the leave
ledger's contents. -/
theorem C5_hourly_gross (r : SalaryRecord) (db : Database) (r' : SalaryRecord)
    (hh : r.emp.employee_type = EmployeeType.hourly)
    (h : calcForMonth r db = Except.ok r') :
    r'.gross_salary = round2 (hoursSum db r.emp r.year r.month * r.emp.base_salary) ∧
    r'.unpaid_leave_days = 0 ∧
    r'.deductions = 0 := by
  have hv := calcForMonth_ok_valid h
  have hcalc := calcForMonth_hourly r db hv hh
  rw [h] at hcalc
  injection hcalc with hr'
  subst hr'
  refine ⟨rfl, ?_, ?_⟩
  · show round2 0 = 0
    exact round2_zero
  · show round2 0 = 0
    exact round2_zero

/-- C6: for every part_time employee and month, `calculate_for_month`
computes `gross_salary` = `base_salary` (the per-day rate) × the count of
`present` attendance entries, exactly (the product of a 2-decimal rate and
an integer count needs no rounding), and `deductions` = unpaid approved
leave count × rate + half-day count × rate × 0.5, 2-decimal rounded. -/
theorem C6_part_time_formulas (r : SalaryRecord) (db : Database) (r' : SalaryRecord)
    (hpt : r.emp.employee_type = EmployeeType.part_time)
    (hb : Dec2 r.emp.base_salary)
    (h : calcForMonth r db = Except.ok r') :
    r'.gross_salary = r.emp.base_salary * (presentCount db r.emp r.year r.month : ℚ) ∧
    r'.deductions = round2 ((unpaidLeaveCount db r.emp r.year r.month : ℚ) * r.emp.base_salary +
      (halfDayCount db r.emp r.year r.month : ℚ) * (r.emp.base_salary * (1/2))) := by
  have hv := calcForMonth_ok_valid h
  have hcalc := calcForMonth_part_time r db hv hpt
  rw [h] at hcalc
  injection hcalc with hr'
  subst hr'
  refine ⟨?_, rfl⟩
  show round2 _ = _
  exact round2_dec2 (dec2_mul_natCast hb _)

theorem finalize_bonus (r : SalaryRecord) (db : Database) (atts : List Attendance)
    (g d hf u : ℚ) :
    (finalize r db atts g d hf u).bonus_applied = round2 (bonusFor r.emp db atts u) := rfl

theorem finalize_unpaid (r : SalaryRecord) (db : Database) (atts : List Attendance)
    (g d hf u : ℚ) :
    (finalize r db atts g d hf u).unpaid_leave_days = round2 u := rfl

theorem bonusFor_not_eligible (e : Employee) (db : Database) (atts : List Attendance)
    (u : ℚ) (h : e.bonus_eligible = false) : bonusFor e db atts u = 0 := by
  simp [bonusFor, h]

theorem bonusFor_disqualified (e : Employee) (db : Database) (atts : List Attendance)
    (u : ℚ)
    (hd : 0 < u ∨ atts.any (fun a => decide (a.status = AttStatus.late)) = true) :
    bonusFor e db atts u = 0 := by
  unfold bonusFor
  cases he : e.bonus_eligible with
  | false => simp
  | true => simp only [if_true]; rw [if_pos hd]

/-- C2: `calculate_for_month` forces `bonus_applied = 0` whenever the
computed `unpaid_leave_days` is positive or some attendance entry of the
month is `late`, even for a bonus-eligible employee with a positive bonus
amount; and a non-eligible employee always gets `bonus_applied = 0`. -/
theorem C2_bonus_disqualification (r : SalaryRecord) (db : Database)
    (r' : SalaryRecord) (h : calcForMonth r db = Except.ok r') :
    (r.emp.bonus_eligible = false → r'.bonus_applied = 0) ∧
    ((0 < r'.unpaid_leave_days ∨
        ∃ a ∈ monthAtts db r.emp r.year r.month, a.status = AttStatus.late) →
      r'.bonus_applied = 0) := by
  have hv := calcForMonth_ok_valid h
  have hlate : (∃ a ∈ monthAtts db r.emp r.year r.month, a.status = AttStatus.late) →
      (monthAtts db r.emp r.year r.month).any
        (fun a => decide (a.status = AttStatus.late)) = true := by
    intro hl
    rw [List.any_eq_true]
    obtain ⟨a, ha, hs⟩ := hl
    exact ⟨a, ha, by simp [hs]⟩
  cases het : r.emp.employee_type with
  | full_time =>
      obtain ⟨rate, hrate⟩ := calcForMonth_ft_rate het h
      have hcalc := calcForMonth_full_time r db rate hv het hrate
      rw [h] at hcalc
      injection hcalc with hr'
      subst hr'
      refine ⟨fun hne => ?_, fun hd => ?_⟩
      · rw [finalize_bonus, bonusFor_not_eligible _ _ _ _ hne]
        exact round2_zero
      · rw [finalize_bonus, bonusFor_disqualified]
        · exact round2_zero
        · rcases hd with hpos | hl
          · left
            rw [finalize_unpaid,
              round2_dec2 (dec2_add (dec2_natCast _) (dec2_natCast _))] at hpos
            exact hpos
          · exact Or.inr (hlate hl)
  | part_time =>
      have hcalc := calcForMonth_part_time r db hv het
      rw [h] at hcalc
      injection hcalc with hr'
      subst hr'
      refine ⟨fun hne => ?_, fun hd => ?_⟩
      · rw [finalize_bonus, bonusFor_not_eligible _ _ _ _ hne]
        exact round2_zero
      · rw [finalize_bonus, bonusFor_disqualified]
        · exact round2_zero
        · rcases hd with hpos | hl
          · rw [finalize_unpaid, round2_zero] at hpos
            exact absurd hpos (lt_irrefl 0)
          · exact Or.inr (hlate hl)
  | hourly =>
      have hcalc := calcForMonth_hourly r db hv het
      rw [h] at hcalc
      injection hcalc with hr'
      subst hr'
      refine ⟨fun hne => ?_, fun hd => ?_⟩
      · rw [finalize_bonus, bonusFor_not_eligible _ _ _ _ hne]
        exact round2_zero
      · rw [finalize_bonus, bonusFor_disqualified]
        · exact round2_zero
        · rcases hd with hpos | hl
          · rw [finalize_unpaid, round2_zero] at hpos
            exact absurd hpos (lt_irrefl 0)
          · exact Or.inr (hlate hl)

theorem calcForMonth_key {r : SalaryRecord} {db : Database} {r' : SalaryRecord}
    (h : calcForMonth r db = Except.ok r') :
    r'.emp = r.emp ∧ r'.year = r.year ∧ r'.month = r.month := by
  have hv := calcForMonth_ok_valid h
  cases het : r.emp.employee_type with
  | full_time =>
      obtain ⟨rate, hrate⟩ := calcForMonth_ft_rate het h
      have hcalc := calcForMonth_full_time r db rate hv het hrate
      rw [h] at hcalc
      injection hcalc with hr'
      subst hr'
      exact ⟨rfl, rfl, rfl⟩
  | part_time =>
      have hcalc := calcForMonth_part_time r db hv het
      rw [h] at hcalc
      injection hcalc with hr'
      subst hr'
      exact ⟨rfl, rfl, rfl⟩
  | hourly =>
      have hcalc := calcForMonth_hourly r db hv het
      rw [h] at hcalc
      injection hcalc with hr'
      subst hr'
      exact ⟨rfl, rfl, rfl⟩

/-- C8: the engine is deterministic and idempotent — the computed record
depends only on the `(employee, year, month)` key and the ledger data, all
prior field values being overwritten, so recomputing an already computed
record returns it unchanged in all six computed fields. -/
theorem C8_idempotent_deterministic :
    (∀ (r₁ r₂ : SalaryRecord) (db : Database), r₁.emp = r₂.emp →
      r₁.year = r₂.year → r₁.month = r₂.month →
      calcForMonth r₁ db = calcForMonth r₂ db) ∧
    (∀ (r r' : SalaryRecord) (db : Database),
      calcForMonth r db = Except.ok r' → calcForMonth r' db = Except.ok r') := by
  have key : ∀ (r₁ r₂ : SalaryRecord) (db : Database), r₁.emp = r₂.emp →
      r₁.year = r₂.year → r₁.month = r₂.month →
      calcForMonth r₁ db = calcForMonth r₂ db := by
    intro r₁ r₂ db h1 h2 h3
    obtain ⟨e₁, y₁, m₁, g₁, d₁, b₁, n₁, hf₁, u₁⟩ := r₁
    obtain ⟨e₂, y₂, m₂, g₂, d₂, b₂, n₂, hf₂, u₂⟩ := r₂
    dsimp only at h1 h2 h3
    subst h1
    subst h2
    subst h3
    rfl
  refine ⟨key, ?_⟩
  intro r r' db h
  obtain ⟨he, hy, hm⟩ := calcForMonth_key h
  rw [key r' r db he hy hm, h]

/-- C7: with both times set, `calculate_hours` stores a 2-decimal value
within half a cent of the elapsed duration in hours (the shift length gets
a 24-hour correction when `time_out < time_in`), exactly the duration
whenever it is representable in 2 decimals (36 divides the seconds); with
a time missing, it stores the employee's `working_hours` for full/part-time
`present` rows and null for every other row. -/
theorem C7_calculate_hours :
    (∀ (e : Employee) (a : Attendance) (tin tout : ℕ),
      a.time_in = some tin → a.time_out = some tout →
      ∃ h : ℚ, calculate_hours e a = some h ∧ Dec2 h ∧
        |h - ((elapsedSeconds tin tout : ℕ) : ℚ) / 3600| ≤ 1/200 ∧
        (elapsedSeconds tin tout % 36 = 0 →
          h = ((elapsedSeconds tin tout : ℕ) : ℚ) / 3600)) ∧
    (∀ (e : Employee) (a : Attendance),
      a.time_in = none ∨ a.time_out = none →
      calculate_hours e a =
        if (e.employee_type = EmployeeType.full_time ∨
            e.employee_type = EmployeeType.part_time) ∧ a.status = AttStatus.present
        then some e.working_hours else none) := by
  constructor
  · intro e a tin tout hin hout
    refine ⟨round2 (((elapsedSeconds tin tout : ℕ) : ℚ) / 3600), ?_, dec2_round2 _, ?_, ?_⟩
    · unfold calculate_hours
      rw [hin, hout]
      rfl
    · exact abs_round2_sub_le _
    · intro h36
      obtain ⟨k, hk⟩ := Nat.dvd_of_mod_eq_zero h36
      have hd : ((elapsedSeconds tin tout : ℕ) : ℚ) / 3600 = ((k : ℤ) : ℚ) / 100 := by
        rw [hk]
        push_cast
        ring
      rw [hd]
      exact round2_dec2 ⟨k, rfl⟩
  · intro e a hmiss
    rcases hmiss with h1 | h1
    · unfold calculate_hours
      rw [h1]
    · cases h2 : a.time_in with
      | none =>
          unfold calculate_hours
          rw [h2]
      | some tin =>
          unfold calculate_hours
          rw [h1, h2]

theorem isleap_iff (y : ℕ) :
    isleap y = true ↔ (y % 4 = 0 ∧ (y % 100 ≠ 0 ∨ y % 400 = 0)) := by
  simp [isleap, Bool.and_eq_true, Bool.or_eq_true, beq_iff_eq, bne_iff_ne]

/-- C9 counterexample: 2100 is divisible by 4, yet `calendar.monthrange`
(and hence the month bound `calculate_for_month` queries with) gives
February 2100 only 28 days — the code implements the full Gregorian rule,
not the claim's `year % 4 == 0` test. -/
theorem C9_counterexample : 2100 % 4 = 0 ∧ daysInMonth 2100 2 = 28 ∧
    daysInMonth 2100 2 ≠ 29 := by
  refine ⟨by norm_num, ?_, ?_⟩ <;> simp [daysInMonth, isleap]

/-- C9 amended: February has 29 days exactly in Gregorian leap years
(divisible by 4 and, for century years, by 400), and for every valid month
the engine's last-day bound agrees with the independently written
`specDaysInMonth` table of true calendar month lengths. -/
theorem C9_amended_month_bounds :
    (∀ y : ℕ, daysInMonth y 2 = 29 ↔ (y % 4 = 0 ∧ (y % 100 ≠ 0 ∨ y % 400 = 0))) ∧
    (∀ y m : ℕ, 1 ≤ m → m ≤ 12 → daysInMonth y m = specDaysInMonth y m) := by
  constructor
  · intro y
    rw [show daysInMonth y 2 = if isleap y then 29 else 28 from rfl]
    rcases hl : isleap y with hf | ht
    · rw [← isleap_iff]
      simp [hl]
    · rw [← isleap_iff]
      simp [hl]
  · intro y m h1 h2
    interval_cases m <;>
      simp [daysInMonth, specDaysInMonth, isleap_iff, ← isleap_iff]

theorem finalize_gross (r : SalaryRecord) (db : Database) (atts : List Attendance)
    (g d hf u : ℚ) : (finalize r db atts g d hf u).gross_salary = round2 g := rfl

theorem finalize_deductions (r : SalaryRecord) (db : Database) (atts : List Attendance)
    (g d hf u : ℚ) : (finalize r db atts g d hf u).deductions = round2 d := rfl

theorem finalize_net (r : SalaryRecord) (db : Database) (atts : List Attendance)
    (g d hf u : ℚ) :
    (finalize r db atts g d hf u).net_salary =
      round2 (g - d + bonusFor r.emp db atts u) := rfl

theorem finalize_half (r : SalaryRecord) (db : Database) (atts : List Attendance)
    (g d hf u : ℚ) : (finalize r db atts g d hf u).half_day_deductions = round2 hf := rfl

theorem C4counts : unpaidLeaveCount C4db C4rec.emp C4rec.year C4rec.month = 2 ∧
    absentCount C4db C4rec.emp C4rec.year C4rec.month = 0 ∧
    halfDayCount C4db C4rec.emp C4rec.year C4rec.month = 1 := by
  refine ⟨?_, ?_, ?_⟩ <;> decide

theorem C4rate : getDailyRate C4rec.emp C4db = Except.ok (15000/11) := by
  simp [getDailyRate, settingGet, C4emp, C4db, C4rec]
  norm_num

theorem C4fields : ∃ r' : SalaryRecord, calcForMonth C4rec C4db = Except.ok r' ∧
    r'.gross_salary = 30000 ∧ r'.deductions = 340909/100 ∧
    r'.bonus_applied = 0 ∧ r'.net_salary = 2659091/100 ∧
    r'.half_day_deductions = 34091/50 ∧ r'.unpaid_leave_days = 2 := by
  obtain ⟨h1, h2, h3⟩ := C4counts
  have h := calcForMonth_full_time C4rec C4db (15000/11) (by norm_num [validYM, C4rec]) rfl C4rate
  rw [h1, h2, h3] at h
  refine ⟨_, h, ?_, ?_, ?_, ?_, ?_, ?_⟩
  · rw [finalize_gross]
    show round2 (30000 : ℚ) = 30000
    exact round2_dec2 ⟨3000000, by norm_num⟩
  · rw [finalize_deductions]
    have harg : (((2 : ℕ) : ℚ) + ((0 : ℕ) : ℚ)) * (15000/11) +
        ((1 : ℕ) : ℚ) * (15000/11) * (1/2) = 37500/11 := by
      push_cast
      ring
    rw [harg, round2_eq_down (n := 340909) (by norm_num) (by norm_num)]
    norm_num
  · rw [finalize_bonus, bonusFor_not_eligible _ _ _ _ rfl]
    exact round2_zero
  · rw [finalize_net, bonusFor_not_eligible _ _ _ _ rfl]
    have harg : (C4rec.emp.base_salary : ℚ) -
        ((((2 : ℕ) : ℚ) + ((0 : ℕ) : ℚ)) * (15000/11) +
          ((1 : ℕ) : ℚ) * (15000/11) * (1/2)) + 0 = 292500/11 := by
      show (30000 : ℚ) - _ + 0 = _
      push_cast
      ring
    rw [harg, round2_eq_up (n := 2659090) (by norm_num) (by norm_num)]
    norm_num
  · rw [finalize_half]
    have harg : ((1 : ℕ) : ℚ) * (15000/11) * (1/2) = 7500/11 := by
      push_cast
      ring
    rw [harg, round2_eq_up (n := 68181) (by norm_num) (by norm_num)]
    norm_num
  · rw [finalize_unpaid]
    have harg : (((2 : ℕ) : ℚ) + ((0 : ℕ) : ℚ)) = 2 := by push_cast; ring
    rw [harg]
    exact round2_dec2 ⟨200, by norm_num⟩

/-- C4 counterexample: in the spec's example scenario the code does not
round the daily rate before using it — `get_daily_rate` returns
30000/22 = 1363.6363..., not 1363.64, and the persisted deductions are
3409.09, not 3409.10 (the spec hand-computed from the rounded rate);
likewise net is not `30000 - 3409.10 + bonus`. -/
theorem C4_counterexample :
    getDailyRate C4rec.emp C4db = Except.ok (15000/11) ∧
    (15000/11 : ℚ) ≠ 34091/25 ∧
    ∃ r' : SalaryRecord, calcForMonth C4rec C4db = Except.ok r' ∧
      r'.deductions ≠ 34091/10 ∧
      r'.net_salary ≠ 30000 - 34091/10 + r'.bonus_applied := by
  refine ⟨C4rate, by norm_num, ?_⟩
  obtain ⟨r', hr', _, hd, hb, hn, _, _⟩ := C4fields
  exact ⟨r', hr', by rw [hd]; norm_num, by rw [hn, hb]; norm_num⟩

/-- C4 amended: same scenario, with the values the code actually
produces — daily_rate = 30000/22 (unrounded), deductions = 3409.09,
half-day deduction = 681.82, and net = 30000 − 3409.09 + bonus_applied
(= 26590.91 with the bonus at 0). -/
theorem C4_amended_example :
    getDailyRate C4rec.emp C4db = Except.ok (30000/22) ∧
    ∃ r' : SalaryRecord, calcForMonth C4rec C4db = Except.ok r' ∧
      r'.gross_salary = 30000 ∧ r'.deductions = 340909/100 ∧
      r'.half_day_deductions = 34091/50 ∧ r'.unpaid_leave_days = 2 ∧
      r'.net_salary = 30000 - 340909/100 + r'.bonus_applied ∧
      r'.net_salary = 2659091/100 := by
  refine ⟨by rw [C4rate]; norm_num, ?_⟩
  obtain ⟨r', hr', hg, hd, hb, hn, hh, hu⟩ := C4fields
  exact ⟨r', hr', hg, hd, hh, hu, by rw [hn, hb]; norm_num, hn⟩

/-- C3: the claim is the code's own documented intent (`§4.3`: must not
divide by zero; `§7`: division by zero is guarded, never a crash), but the
`try/except` of models.py:118-121 only guards the `int()` parse: a stored
`working_days_per_month` of `"0"` parses, reaches the unguarded
`Decimal / Decimal(0)` of models.py:124 and raises `DivisionByZero` for a
full_time employee with nonzero base_salary.  Absent or unparsable values
do fall back to 22, and part_time/hourly employees never divide. -/
theorem C3_division_by_zero_bug :
    getDailyRate C3emp C3dbZero = Except.error "DivisionByZero" ∧
    getDailyRate C3emp C3dbBad = Except.ok (1000/22) ∧
    getDailyRate C3emp C3dbMissing = Except.ok (1000/22) ∧
    getDailyRate C3part C3dbZero = Except.ok 1000 ∧
    getDailyRate C3hour C3dbZero = Except.ok 0 := by
  refine ⟨?_, ?_, ?_, ?_, ?_⟩ <;>
    simp [getDailyRate, settingGet, pyInt, stripWS, afterSign, signOf, digitsToNat,
      C3emp, C3part, C3hour, C3dbZero, C3dbBad, C3dbMissing]

/-- C9 witness: the amended month-bound facts evaluated at 2024
(a leap year) and at a 30-day month. -/
theorem C9_witness :
    daysInMonth 2024 2 = 29 ∧ daysInMonth 2024 4 = specDaysInMonth 2024 4 :=
  ⟨(C9_amended_month_bounds.1 2024).mpr (by norm_num),
   C9_amended_month_bounds.2 2024 4 (by norm_num) (by norm_num)⟩

theorem C8calc : calcForMonth C8rec C8db = Except.ok C8res := by
  have h := calcForMonth_hourly C8rec C8db (by norm_num [validYM, C8rec]) rfl
  rw [h]
  congr 1
  have hs : hoursSum C8db C8rec.emp C8rec.year C8rec.month = 0 := by decide
  have hb0 : bonusFor C8rec.emp C8db
      (monthAtts C8db C8rec.emp C8rec.year C8rec.month) 0 = 0 :=
    bonusFor_not_eligible _ _ _ _ rfl
  simp only [finalize, C8res, SalaryRecord.mk.injEq, hs, hb0]
  norm_num [round2_zero, C8rec, C8emp]

/-- C8 witness: a recomputation of the already-computed record returns it
unchanged (the prior stale values of `C8rec` were overwritten). -/
theorem C8_witness : calcForMonth C8res C8db = Except.ok C8res :=
  C8_idempotent_deterministic.2 C8rec C8res C8db C8calc

theorem C1rate : getDailyRate C1rec.emp C1db = Except.ok (50/11) := by
  simp [getDailyRate, settingGet, C1emp, C1db, C1rec]
  norm_num

theorem C1calc : calcForMonth C1rec C1db = Except.ok C1res := by
  have h1 : unpaidLeaveCount C1db C1rec.emp C1rec.year C1rec.month = 0 := by decide
  have h2 : absentCount C1db C1rec.emp C1rec.year C1rec.month = 0 := by decide
  have h3 : halfDayCount C1db C1rec.emp C1rec.year C1rec.month = 0 := by decide
  have h := calcForMonth_full_time C1rec C1db (50/11)
    (by norm_num [validYM, C1rec]) rfl C1rate
  rw [h1, h2, h3] at h
  rw [h]
  congr 1
  have hb0 : bonusFor C1rec.emp C1db
      (monthAtts C1db C1rec.emp C1rec.year C1rec.month)
      (((0 : ℕ) : ℚ) + ((0 : ℕ) : ℚ)) = 0 :=
    bonusFor_not_eligible _ _ _ _ rfl
  have hg : round2 (100 : ℚ) = 100 := round2_dec2 ⟨10000, by norm_num⟩
  simp only [finalize, C1res, SalaryRecord.mk.injEq, hb0]
  norm_num [C1rec, C1emp, round2_zero, hg]

/-- C1 witness: the full_time formulas at the concrete input. -/
theorem C1_witness :
    ∃ rate : ℚ, getDailyRate C1rec.emp C1db = Except.ok rate ∧
      C1res.gross_salary = C1rec.emp.base_salary ∧
      C1res.unpaid_leave_days =
        (unpaidLeaveCount C1db C1rec.emp C1rec.year C1rec.month : ℚ) +
          (absentCount C1db C1rec.emp C1rec.year C1rec.month : ℚ) ∧
      C1res.half_day_deductions =
        round2 ((halfDayCount C1db C1rec.emp C1rec.year C1rec.month : ℚ) * rate * (1/2)) ∧
      C1res.deductions = round2 (C1res.unpaid_leave_days * rate +
        (halfDayCount C1db C1rec.emp C1rec.year C1rec.month : ℚ) * rate * (1/2)) :=
  C1_full_time_formulas C1rec C1db C1res rfl ⟨10000, by norm_num [C1rec, C1emp]⟩ C1calc

theorem C2rate : getDailyRate C2rec.emp C2db = Except.ok (500/11) := by
  simp [getDailyRate, settingGet, C2emp, C2db, C2rec]
  norm_num

theorem C2calc : calcForMonth C2rec C2db = Except.ok C2res := by
  have h1 : unpaidLeaveCount C2db C2rec.emp C2rec.year C2rec.month = 0 := by decide
  have h2 : absentCount C2db C2rec.emp C2rec.year C2rec.month = 0 := by decide
  have h3 : halfDayCount C2db C2rec.emp C2rec.year C2rec.month = 0 := by decide
  have h := calcForMonth_full_time C2rec C2db (500/11)
    (by norm_num [validYM, C2rec]) rfl C2rate
  rw [h1, h2, h3] at h
  rw [h]
  congr 1
  have hb0 : bonusFor C2rec.emp C2db
      (monthAtts C2db C2rec.emp C2rec.year C2rec.month)
      (((0 : ℕ) : ℚ) + ((0 : ℕ) : ℚ)) = 0 :=
    bonusFor_disqualified _ _ _ _ (Or.inr (by decide))
  have hg : round2 (1000 : ℚ) = 1000 := round2_dec2 ⟨100000, by norm_num⟩
  simp only [finalize, C2res, SalaryRecord.mk.injEq, hb0]
  norm_num [C2rec, C2emp, round2_zero, hg]

/-- C2 witness: the disqualification rule at the concrete input — the
record carries `bonus_applied = 0` despite eligibility and a 500 bonus,
because of the late mark. -/
theorem C2_witness :
    (C2rec.emp.bonus_eligible = false → C2res.bonus_applied = 0) ∧
    ((0 < C2res.unpaid_leave_days ∨
        ∃ a ∈ monthAtts C2db C2rec.emp C2rec.year C2rec.month,
          a.status = AttStatus.late) →
      C2res.bonus_applied = 0) :=
  C2_bonus_disqualification C2rec C2db C2res C2calc

theorem C5calc : calcForMonth C5rec C5db = Except.ok C5res := by
  have hs : hoursSum C5db C5rec.emp C5rec.year C5rec.month = 8 := by
    simp [hoursSum, monthAtts, C5db, C5rec, C5emp, dateLeB, daysInMonth, isleap]
  have h := calcForMonth_hourly C5rec C5db (by norm_num [validYM, C5rec]) rfl
  rw [hs] at h
  rw [h]
  congr 1
  have hb0 : bonusFor C5rec.emp C5db
      (monthAtts C5db C5rec.emp C5rec.year C5rec.month) 0 = 0 :=
    bonusFor_not_eligible _ _ _ _ rfl
  have hg : round2 (80 : ℚ) = 80 := round2_dec2 ⟨8000, by norm_num⟩
  simp only [finalize, C5res, SalaryRecord.mk.injEq, hb0]
  norm_num [C5rec, C5emp, round2_zero, hg]

/-- C5 witness: the hourly formulas at the concrete input — 8 hours at
rate 10 gives gross 80, with no unpaid-leave deduction despite the
approved unpaid leave row. -/
theorem C5_witness :
    C5res.gross_salary =
      round2 (hoursSum C5db C5rec.emp C5rec.year C5rec.month * C5rec.emp.base_salary) ∧
    C5res.unpaid_leave_days = 0 ∧
    C5res.deductions = 0 :=
  C5_hourly_gross C5rec C5db C5res rfl C5calc

theorem C6calc : calcForMonth C6rec C6db = Except.ok C6res := by
  have h1 : presentCount C6db C6rec.emp C6rec.year C6rec.month = 2 := by decide
  have h2 : unpaidLeaveCount C6db C6rec.emp C6rec.year C6rec.month = 1 := by decide
  have h3 : halfDayCount C6db C6rec.emp C6rec.year C6rec.month = 1 := by decide
  have h := calcForMonth_part_time C6rec C6db (by norm_num [validYM, C6rec]) rfl
  rw [h1, h2, h3] at h
  rw [h]
  congr 1
  have hb0 : bonusFor C6rec.emp C6db
      (monthAtts C6db C6rec.emp C6rec.year C6rec.month) 0 = 0 :=
    bonusFor_not_eligible _ _ _ _ rfl
  have hg1 : round2 (2000 : ℚ) = 2000 := round2_dec2 ⟨200000, by norm_num⟩
  have hg2 : round2 (1500 : ℚ) = 1500 := round2_dec2 ⟨150000, by norm_num⟩
  have hg3 : round2 (500 : ℚ) = 500 := round2_dec2 ⟨50000, by norm_num⟩
  simp only [finalize, C6res, SalaryRecord.mk.injEq, hb0]
  norm_num [C6rec, C6emp, round2_zero, hg1, hg2, hg3]

/-- C6 witness: the part_time formulas at the concrete input — gross
exactly 1000 × 2, deductions 1000 + 500. -/
theorem C6_witness :
    C6res.gross_salary = C6rec.emp.base_salary *
      (presentCount C6db C6rec.emp C6rec.year C6rec.month : ℚ) ∧
    C6res.deductions = round2
      ((unpaidLeaveCount C6db C6rec.emp C6rec.year C6rec.month : ℚ) * C6rec.emp.base_salary +
        (halfDayCount C6db C6rec.emp C6rec.year C6rec.month : ℚ) *
          (C6rec.emp.base_salary * (1/2))) :=
  C6_part_time_formulas C6rec C6db C6res rfl ⟨100000, by norm_num [C6rec, C6emp]⟩ C6calc

/-- C7 witness: the overnight shift — the derivation applies with the
24-hour correction giving 28800 s, and the stored value is exactly 8.00. -/
theorem C7_witness :
    (∃ h : ℚ, calculate_hours C7emp C7att = some h ∧ Dec2 h ∧
      |h - ((elapsedSeconds 79200 21600 : ℕ) : ℚ) / 3600| ≤ 1/200 ∧
      (elapsedSeconds 79200 21600 % 36 = 0 →
        h = ((elapsedSeconds 79200 21600 : ℕ) : ℚ) / 3600)) ∧
    calculate_hours C7emp C7att = some 8 := by
  refine ⟨C7_calculate_hours.1 C7emp C7att 79200 21600 rfl rfl, ?_⟩
  have h8 : round2 (8 : ℚ) = 8 := round2_dec2 ⟨800, by norm_num⟩
  show some (round2 (((108000 - 79200 : ℕ) : ℚ) / 3600)) = some 8
  norm_num [h8]

/-- C10 counterexample: `paid_leave_quota` is a plain signed integer
column, and `Employee.save` keeps any nonzero value — so a full_time
employee saved with quota `-1` keeps it, and the claimed invariant
`paid_leave_quota > 0` after save fails. -/
theorem C10_counterexample :
    C10neg.employee_type = EmployeeType.full_time ∧
    (employeeSave C10neg).paid_leave_quota = -1 ∧
    ¬(0 < (employeeSave C10neg).paid_leave_quota) := by
  refine ⟨rfl, ?_, ?_⟩ <;> simp [employeeSave, C10neg]

/-- C10 amended: on every save a zero quota is replaced by the type
default (22 full_time, 11 part_time, 0 hourly), so a full_time/part_time
employee never ends a save with quota 0 — and ends with a positive quota
whenever the pre-save value was nonnegative; an hourly employee's zero
quota stays 0. -/
theorem C10_amended_save_quota (e : Employee) :
    (e.paid_leave_quota = 0 → (employeeSave e).paid_leave_quota =
      (match e.employee_type with
       | EmployeeType.full_time => 22
       | EmployeeType.part_time => 11
       | EmployeeType.hourly => 0)) ∧
    ((e.employee_type = EmployeeType.full_time ∨
        e.employee_type = EmployeeType.part_time) →
      (employeeSave e).paid_leave_quota ≠ 0) ∧
    (0 ≤ e.paid_leave_quota →
      (e.employee_type = EmployeeType.full_time ∨
        e.employee_type = EmployeeType.part_time) →
      0 < (employeeSave e).paid_leave_quota) ∧
    (e.employee_type = EmployeeType.hourly → e.paid_leave_quota = 0 →
      (employeeSave e).paid_leave_quota = 0) := by
  refine ⟨fun h0 => ?_, fun ht => ?_, fun hge ht => ?_, fun hh h0 => ?_⟩
  · simp [employeeSave, h0]
  · by_cases h0 : e.paid_leave_quota = 0
    · rcases ht with ht | ht <;> simp [employeeSave, h0, ht]
    · simp [employeeSave, h0]
  · by_cases h0 : e.paid_leave_quota = 0
    · rcases ht with ht | ht <;> simp [employeeSave, h0, ht]
    · simp [employeeSave, h0]
      omega
  · simp [employeeSave, h0, hh]

/-- C10 witness: saving a full_time employee with the unset quota 0 yields
the default 22, which is nonzero and positive. -/
theorem C10_witness :
    (employeeSave C10zero).paid_leave_quota =
      (match C10zero.employee_type with
       | EmployeeType.full_time => 22
       | EmployeeType.part_time => 11
       | EmployeeType.hourly => 0) ∧
    (employeeSave C10zero).paid_leave_quota ≠ 0 ∧
    0 < (employeeSave C10zero).paid_leave_quota :=
  ⟨(C10_amended_save_quota C10zero).1 rfl,
   (C10_amended_save_quota C10zero).2.1 (Or.inl rfl),
   (C10_amended_save_quota C10zero).2.2.1 (by norm_num [C10zero]) (Or.inl rfl)⟩
